import Mathlib

/-
Verification of the MovieMate chat core (src/app.py).

The core consists of:
* `communicate_with_scala` (app.py lines 21-54): a file-mediated
  request/response handoff with a bounded retry poll loop;
* the chat section of `main` (app.py lines 228-284): conversation-store
  initialization, session memory, and persistence of questions.

State the Python code keeps in files is modelled explicitly (slot contents
as strings, the conversations directory as an association list of file
name / file contents), and the observable side effects of one call are
modelled as an event trace.  The external Scala engine is modelled as an
environment `resp : Nat → Option String` giving, for each poll attempt,
the content found in the response file (`some s`) or a read failure
(`none`, the `except` path of app.py lines 44-48).
-/

set_option autoImplicit false

namespace MovieMate

/-- Python `str.strip()` (app.py line 38, line 265): remove leading and
trailing whitespace characters. -/
def py_strip (s : String) : String :=
  ⟨((s.data.dropWhile Char.isWhitespace).reverse.dropWhile Char.isWhitespace).reverse⟩

/-- Python `file.readline()` restricted to its line content: the characters
before the first newline (app.py line 265). -/
def first_line (s : String) : String :=
  ⟨s.data.takeWhile (fun c => c != '\n')⟩

/-- Fixed fallback message returned by `communicate_with_scala` on every
failure path (app.py lines 47, 50, 54). -/
def fallback_message : String :=
  "I\x27m having trouble processing that. Could you try again?"

/-- `max_retries` from app.py line 22. -/
def max_retries : Nat := 3

/-- `retry_delay` from app.py line 23. -/
def retry_delay : Nat := 2

/-- Observable side effects of one call to `communicate_with_scala`:
writing the request file, sleeping, reading the response file (with the
value obtained, or `none` when the read raised), clearing the response
file, and displaying an error via `st.error`. -/
inductive Event where
  | writeRequest (content : String)
  | sleep (duration : Nat)
  | readResponse (result : Option String)
  | clearResponse
  | displayError
  deriving DecidableEq

/-- Retry loop of app.py lines 33-50, started at poll attempt `attempt`
with `fuel` loop iterations remaining (the top-level call is
`poll_from resp 0 max_retries`, matching `for attempt in range(max_retries)`).
Each iteration sleeps `retry_delay`, reads the response file, and:
if the stripped content is non-empty, clears the file and returns it;
if it is empty, continues; if the read raised (`resp attempt = none`) on
the last attempt (`attempt == max_retries - 1`, i.e. `fuel = 1`), displays
the error and returns the fallback, otherwise continues.  Exhausting the
loop returns the fallback (line 50).  Returns the result together with the
trace of events performed. -/
def poll_from (resp : Nat → Option String) : Nat → Nat → String × List Event
  | _, 0 => (fallback_message, [])
  | attempt, rest + 1 =>
    match resp attempt with
    | some s =>
      if py_strip s = "" then
        let nxt := poll_from resp (attempt + 1) rest
        (nxt.1, Event.sleep retry_delay :: Event.readResponse (some s) :: nxt.2)
      else
        (py_strip s,
         [Event.sleep retry_delay, Event.readResponse (some s), Event.clearResponse])
    | none =>
      if rest = 0 then
        (fallback_message,
         [Event.sleep retry_delay, Event.readResponse none, Event.displayError])
      else
        let nxt := poll_from resp (attempt + 1) rest
        (nxt.1, Event.sleep retry_delay :: Event.readResponse none :: nxt.2)

/-- `communicate_with_scala` (app.py lines 21-54).  `writeFails` models the
outer `except` (lines 52-54): the write of `pyinput.txt` raises, `st.error`
is shown and the fallback returned.  Otherwise the request payload plus a
newline is written to the request file (lines 29-30) and the retry loop
runs.  Returns the result string and the event trace. -/
def communicate_with_scala (writeFails : Bool) (resp : Nat → Option String)
    (user_input : String) : String × List Event :=
  if writeFails then
    (fallback_message, [Event.displayError])
  else
    ((poll_from resp 0 max_retries).1,
     Event.writeRequest (user_input ++ "\n") :: (poll_from resp 0 max_retries).2)

/-- A poll attempt yields no usable value: either the read raised, or the
content strips to the empty string. -/
def noValue (o : Option String) : Bool :=
  py_strip (o.getD "") == ""

/-- Recognize read events in a trace. -/
def isRead : Event → Bool
  | Event.readResponse _ => true
  | _ => false

/-- Every read of the response file in the trace is immediately preceded by
a sleep of exactly `retry_delay` (app.py line 34 precedes line 37 in every
iteration). -/
def sleep_before_reads : List Event → Bool
  | [] => true
  | Event.readResponse _ :: _ => false
  | Event.sleep d :: Event.readResponse _ :: rest =>
    (d == retry_delay) && sleep_before_reads rest
  | _ :: rest => sleep_before_reads rest

/-- Contents of the two channel files `pyinput.txt` and `scalaoutput.txt`
(app.py lines 24-25). -/
structure ChannelState where
  pyinput : String
  scalaoutput : String
  deriving DecidableEq

/-- The send half of the channel (app.py lines 28-30): overwrite the
request file with the payload followed by a newline.  The response file is
untouched. -/
def send (payload : String) (s : ChannelState) : ChannelState :=
  { s with pyinput := payload ++ "\n" }

/-- One read of the response slot (app.py lines 37-43): read the file,
strip it; if non-empty, clear the file and return the stripped content;
if empty, return nothing and leave the state unchanged (not an error). -/
def tryReceive (s : ChannelState) : Option String × ChannelState :=
  let scala_output := py_strip s.scalaoutput
  if scala_output = "" then (none, s)
  else (some scala_output, { s with scalaoutput := "" })


/-- State of the conversation store (app.py lines 243-265): whether the
`conversations/` directory exists, the content of `currentchat.txt`
(`none` when the file does not exist), and the other files of the
directory as an association list of file name to file contents. -/
structure StoreState where
  dirExists : Bool
  pointer : Option String
  logs : List (String × String)
  deriving DecidableEq

/-- Name of the default conversation log (app.py lines 251, 260). -/
def defaultChatFile : String := "chathistory_0.txt"

/-- Lines 244-246: `os.makedirs` when the directory does not exist. -/
def ensureDir (s : StoreState) : StoreState :=
  { s with dirExists := true }

/-- Lines 248-251: create `currentchat.txt` holding the default log name
when the file does not exist; an existing file is left untouched. -/
def ensurePointer (s : StoreState) : StoreState :=
  match s.pointer with
  | none => { s with pointer := some defaultChatFile }
  | some _ => s

/-- Lines 253-261: list the conversation files (with `currentchat.txt`
removed) and, only when none exist, create the default log empty. -/
def ensureLog (s : StoreState) : StoreState :=
  match s.logs with
  | [] => { s with logs := [(defaultChatFile, "")] }
  | _ :: _ => s

/-- Store initialization performed on every rerun of the chat page
(app.py lines 243-261), as the sequence of its three guarded steps. -/
def ensureInitialized (s : StoreState) : StoreState :=
  ensureLog (ensurePointer (ensureDir s))

/-- Lines 264-265: the current conversation file name, read as
`file.readline().strip()` from `currentchat.txt`. -/
def current_chat (s : StoreState) : String :=
  py_strip (first_line (s.pointer.getD ""))

/-- Look up the contents of a named file in the directory model. -/
def lookupLog : List (String × String) → String → Option String
  | [], _ => none
  | (n, c) :: rest, name => if n = name then some c else lookupLog rest name

/-- Lines 283-284: `open(path, 'a')` followed by `file.write(q + '\n')` —
append the question plus a newline to the named file, creating the file
with that content when it does not exist. -/
def appendToLog : List (String × String) → String → String → List (String × String)
  | [], name, q => [(name, q ++ "\n")]
  | (n, c) :: rest, name, q =>
    if n = name then (n, c ++ (q ++ "\n")) :: rest
    else (n, c) :: appendToLog rest name q

/-- One entry of `st.session_state.chat_memory` (app.py line 280). -/
structure Exchange where
  question : String
  answer : String
  deriving DecidableEq

/-- Session state of the chat page: the in-memory `chat_memory` list and
the durable store. -/
structure ChatState where
  chat_memory : List Exchange
  store : StoreState
  deriving DecidableEq

/-- Outcome of the question-handling block: it either runs to completion,
or the append to the conversation file raises and — there being no
`try`/`except` around app.py lines 283-284 — the exception escapes the
block unhandled. -/
inductive AskOutcome where
  | completed
  | raisedPersistError
  deriving DecidableEq

/-- The question-handling block, app.py lines 275-284: obtain the answer
from `communicate_with_scala`, append the exchange to `chat_memory`, then
append the question to the current conversation file.  `persistFails`
models the file append raising (disk full, permissions); the code has no
handler for it, so in that case the exception propagates with the memory
append already performed and the store unchanged. -/
def askStep (persistFails writeFails : Bool) (resp : Nat → Option String)
    (q : String) (st : ChatState) : AskOutcome × ChatState :=
  let response := (communicate_with_scala writeFails resp q).1
  let mem2 := st.chat_memory ++ [{ question := q, answer := response }]
  if persistFails then
    (AskOutcome.raisedPersistError, { st with chat_memory := mem2 })
  else
    (AskOutcome.completed,
     { chat_memory := mem2,
       store := { st.store with
                  logs := appendToLog st.store.logs (current_chat st.store) q } })

/-- A concrete store used by the closed witness statements. -/
def demoStore : StoreState :=
  { dirExists := true, pointer := some defaultChatFile,
    logs := [(defaultChatFile, "earlier question\n")] }

/-- A concrete chat state used by the closed witness statements. -/
def demoChat : ChatState :=
  { chat_memory := [], store := demoStore }

/-- Helper: when every attempt in the remaining budget yields no usable
value, the poll loop returns the fallback message. -/
theorem poll_from_fallback_of_noValue (resp : Nat → Option String) :
    ∀ fuel attempt, (∀ k, k < fuel → noValue (resp (attempt + k)) = true) →
      (poll_from resp attempt fuel).1 = fallback_message := by
  intro fuel
  induction fuel with
  | zero => intro attempt _; rfl
  | succ rest ih =>
    intro attempt h
    have h0 : noValue (resp attempt) = true := by
      have := h 0 (Nat.succ_pos rest)
      simpa using this
    have hshift : ∀ k, k < rest → noValue (resp (attempt + 1 + k)) = true := by
      intro k hk
      have hh := h (k + 1) (by omega)
      have e : attempt + (k + 1) = attempt + 1 + k := by omega
      rw [e] at hh
      exact hh
    cases hr : resp attempt with
    | some s =>
      have hs : py_strip s = "" := by
        rw [hr] at h0
        simpa [noValue] using h0
      simp [poll_from, hr, hs]
      exact ih (attempt + 1) hshift
    | none =>
      by_cases hrest : rest = 0
      · subst hrest
        simp [poll_from, hr]
      · simp [poll_from, hr, hrest]
        exact ih (attempt + 1) hshift

/-- Helper: the poll loop either returns the fallback message, or there is
a first attempt `k` within the budget whose read produced a value with
non-empty strip, and the loop returns exactly that stripped value. -/
theorem poll_from_result_spec (resp : Nat → Option String) :
    ∀ fuel attempt,
      (poll_from resp attempt fuel).1 = fallback_message ∨
      ∃ k, k < fuel ∧ (∀ j, j < k → noValue (resp (attempt + j)) = true) ∧
        ∃ s, resp (attempt + k) = some s ∧ py_strip s ≠ "" ∧
          (poll_from resp attempt fuel).1 = py_strip s := by
  intro fuel
  induction fuel with
  | zero => intro attempt; exact Or.inl rfl
  | succ rest ih =>
    intro attempt
    cases hr : resp attempt with
    | some s =>
      by_cases hs : py_strip s = ""
      · rcases ih (attempt + 1) with hfb | ⟨k, hk, hprev, t, ht, htne, hres⟩
        · left
          simp [poll_from, hr, hs, hfb]
        · right
          refine ⟨k + 1, by omega, ?_, t, ?_, htne, ?_⟩
          · intro j hj
            cases j with
            | zero =>
              rw [Nat.add_zero, hr]
              simp [noValue, hs]
            | succ j =>
              have e : attempt + (j + 1) = attempt + 1 + j := by omega
              rw [e]
              exact hprev j (by omega)
          · have e : attempt + (k + 1) = attempt + 1 + k := by omega
            rw [e]
            exact ht
          · simp [poll_from, hr, hs]
            exact hres
      · right
        refine ⟨0, by omega, by intro j hj; omega, s, by rw [Nat.add_zero]; exact hr, hs, ?_⟩
        simp [poll_from, hr, hs]
    | none =>
      by_cases hrest : rest = 0
      · left
        subst hrest
        simp [poll_from, hr]
      · rcases ih (attempt + 1) with hfb | ⟨k, hk, hprev, t, ht, htne, hres⟩
        · left
          simp [poll_from, hr, hrest, hfb]
        · right
          refine ⟨k + 1, by omega, ?_, t, ?_, htne, ?_⟩
          · intro j hj
            cases j with
            | zero =>
              rw [Nat.add_zero, hr]
              decide
            | succ j =>
              have e : attempt + (j + 1) = attempt + 1 + j := by omega
              rw [e]
              exact hprev j (by omega)
          · have e : attempt + (k + 1) = attempt + 1 + k := by omega
            rw [e]
            exact ht
          · simp [poll_from, hr, hrest]
            exact hres

/-- Helper: the poll loop performs at most `fuel` reads of the response
file. -/
theorem poll_from_reads_le (resp : Nat → Option String) :
    ∀ fuel attempt, ((poll_from resp attempt fuel).2.countP isRead) ≤ fuel := by
  intro fuel
  induction fuel with
  | zero => intro attempt; simp [poll_from]
  | succ rest ih =>
    intro attempt
    cases hr : resp attempt with
    | some s =>
      by_cases hs : py_strip s = ""
      · have := ih (attempt + 1)
        simp [poll_from, hr, hs, List.countP_cons, isRead]
        omega
      · simp [poll_from, hr, hs, List.countP_cons, isRead]
    | none =>
      by_cases hrest : rest = 0
      · subst hrest
        simp [poll_from, hr, List.countP_cons, isRead]
      · have := ih (attempt + 1)
        simp [poll_from, hr, hrest, List.countP_cons, isRead]
        omega

/-- Helper: in every trace of the poll loop, each read of the response
file is immediately preceded by a sleep of `retry_delay`. -/
theorem poll_from_sleep_before_reads (resp : Nat → Option String) :
    ∀ fuel attempt, sleep_before_reads (poll_from resp attempt fuel).2 = true := by
  intro fuel
  induction fuel with
  | zero => intro attempt; rfl
  | succ rest ih =>
    intro attempt
    cases hr : resp attempt with
    | some s =>
      by_cases hs : py_strip s = ""
      · simp [poll_from, hr, hs, sleep_before_reads]
        exact ih (attempt + 1)
      · simp [poll_from, hr, hs, sleep_before_reads]
    | none =>
      by_cases hrest : rest = 0
      · subst hrest
        simp [poll_from, hr, sleep_before_reads]
      · simp [poll_from, hr, hrest, sleep_before_reads]
        exact ih (attempt + 1)

/-- Helper: when every attempt in the budget yields no usable value, the
poll loop never clears the response file. -/
theorem poll_from_no_clear (resp : Nat → Option String) :
    ∀ fuel attempt, (∀ k, k < fuel → noValue (resp (attempt + k)) = true) →
      Event.clearResponse ∉ (poll_from resp attempt fuel).2 := by
  intro fuel
  induction fuel with
  | zero => intro attempt _; simp [poll_from]
  | succ rest ih =>
    intro attempt h
    have h0 : noValue (resp attempt) = true := by
      have := h 0 (Nat.succ_pos rest)
      simpa using this
    have hshift : ∀ k, k < rest → noValue (resp (attempt + 1 + k)) = true := by
      intro k hk
      have hh := h (k + 1) (by omega)
      have e : attempt + (k + 1) = attempt + 1 + k := by omega
      rw [e] at hh
      exact hh
    cases hr : resp attempt with
    | some s =>
      have hs : py_strip s = "" := by
        rw [hr] at h0
        simpa [noValue] using h0
      simp [poll_from, hr, hs]
      exact ih (attempt + 1) hshift
    | none =>
      by_cases hrest : rest = 0
      · subst hrest
        simp [poll_from, hr]
      · simp [poll_from, hr, hrest]
        exact ih (attempt + 1) hshift

/-- Helper: `communicate_with_scala` with a working request write returns
the fallback message when no attempt yields a usable value. -/
theorem communicate_fallback_of_noValue (resp : Nat → Option String) (q : String)
    (h : ∀ i, i < max_retries → noValue (resp i) = true) :
    (communicate_with_scala false resp q).1 = fallback_message := by
  have hh := poll_from_fallback_of_noValue resp max_retries 0 (by
    intro k hk
    simpa using h k hk)
  simpa [communicate_with_scala] using hh

/-- Helper: result characterization of `communicate_with_scala` with a
working request write: fallback, or the first usable stripped value. -/
theorem communicate_result_spec (resp : Nat → Option String) (q : String) :
    (communicate_with_scala false resp q).1 = fallback_message ∨
    ∃ k, k < max_retries ∧ (∀ j, j < k → noValue (resp j) = true) ∧
      ∃ s, resp k = some s ∧ py_strip s ≠ "" ∧
        (communicate_with_scala false resp q).1 = py_strip s := by
  rcases poll_from_result_spec resp max_retries 0 with hfb | ⟨k, hk, hprev, s, hs, hne, hres⟩
  · left
    simpa [communicate_with_scala] using hfb
  · right
    refine ⟨k, hk, ?_, s, ?_, hne, ?_⟩
    · intro j hj
      have := hprev j hj
      simpa using this
    · simpa using hs
    · simpa [communicate_with_scala] using hres

/-- Helper: an existing `currentchat.txt` is never overwritten by the
initialization code. -/
theorem ensureInitialized_pointer_some (s : StoreState) (p : String)
    (h : s.pointer = some p) : (ensureInitialized s).pointer = some p := by
  cases s with
  | mk d pt ls =>
    simp only at h
    subst h
    cases ls <;> simp [ensureInitialized, ensureDir, ensurePointer, ensureLog]

/-- Helper: when conversation files already exist, initialization leaves
them untouched. -/
theorem ensureInitialized_logs_of_ne_nil (s : StoreState) (h : s.logs ≠ []) :
    (ensureInitialized s).logs = s.logs := by
  cases s with
  | mk d pt ls =>
    cases ls with
    | nil => exact absurd rfl h
    | cons a t =>
      cases pt <;> simp [ensureInitialized, ensureDir, ensurePointer, ensureLog]

/-- Helper: every existing conversation file, with its exact contents,
survives initialization. -/
theorem ensureInitialized_mem_logs (s : StoreState) (n c : String)
    (h : (n, c) ∈ s.logs) : (n, c) ∈ (ensureInitialized s).logs := by
  cases s with
  | mk d pt ls =>
    cases ls with
    | nil => simp at h
    | cons a t =>
      cases pt <;>
        simpa [ensureInitialized, ensureDir, ensurePointer, ensureLog] using h

/-- Helper: initialization is idempotent on the whole store state. -/
theorem ensureInitialized_idem (s : StoreState) :
    ensureInitialized (ensureInitialized s) = ensureInitialized s := by
  cases s with
  | mk d pt ls =>
    cases pt <;> cases ls <;>
      simp [ensureInitialized, ensureDir, ensurePointer, ensureLog]

/-- Helper: appending to a log that exists with contents `c` leaves it
with contents `c ++ q ++ newline`. -/
theorem lookupLog_appendToLog_self (logs : List (String × String)) (name q c : String)
    (h : lookupLog logs name = some c) :
    lookupLog (appendToLog logs name q) name = some (c ++ (q ++ "\n")) := by
  induction logs with
  | nil => simp [lookupLog] at h
  | cons a rest ih =>
    obtain ⟨n, v⟩ := a
    by_cases hn : n = name
    · subst hn
      simp [lookupLog] at h
      subst h
      simp [appendToLog, lookupLog]
    · simp [lookupLog, hn] at h
      simp [appendToLog, lookupLog, hn]
      exact ih h

/-- Helper: appending to one log leaves every other log unchanged. -/
theorem lookupLog_appendToLog_other (logs : List (String × String)) (name q n : String)
    (hn : n ≠ name) :
    lookupLog (appendToLog logs name q) n = lookupLog logs n := by
  induction logs with
  | nil => simp [appendToLog, lookupLog, Ne.symm hn]
  | cons a rest ih =>
    obtain ⟨m, v⟩ := a
    by_cases hm : m = name
    · subst hm
      simp [appendToLog, lookupLog, Ne.symm hn]
    · by_cases hmn : m = n
      · subst hmn
        simp [appendToLog, lookupLog, hm]
      · simp [appendToLog, lookupLog, hm, hmn]
        exact ih

/-- Helper: a question followed by a newline is never the empty string,
so an append strictly extends the log. -/
theorem append_newline_ne_empty (q : String) : q ++ "\n" ≠ "" := by
  cases q with
  | mk l =>
    intro h
    have h2 : l ++ ['\n'] = [] := congrArg String.data h
    simp at h2

/-- Helper: stripping the empty string gives the empty string. -/
theorem py_strip_empty : py_strip "" = "" := rfl

/-- C1: for every payload, `communicate_with_scala` first writes the payload
(followed by a newline) to the request slot, then performs at most
`max_retries = 3` poll iterations, each consisting of a sleep of
`retry_delay = 2` immediately followed by a read of the response slot; it
returns the first non-empty stripped value obtained, and when every attempt
within the budget yields no usable value it returns the fixed fallback
message — the loop never performs more than `max_retries` reads. -/
theorem communicate_retry_spec (resp : Nat → Option String) (q : String) :
    (communicate_with_scala false resp q).2.head? = some (Event.writeRequest (q ++ "\n"))
  ∧ sleep_before_reads (communicate_with_scala false resp q).2 = true
  ∧ (communicate_with_scala false resp q).2.countP isRead ≤ max_retries
  ∧ ((communicate_with_scala false resp q).1 = fallback_message
     ∨ ∃ k, k < max_retries ∧ (∀ j, j < k → noValue (resp j) = true)
         ∧ ∃ s, resp k = some s ∧ py_strip s ≠ ""
             ∧ (communicate_with_scala false resp q).1 = py_strip s)
  ∧ ((∀ i, i < max_retries → noValue (resp i) = true) →
      (communicate_with_scala false resp q).1 = fallback_message) := by
  refine ⟨?_, ?_, ?_, communicate_result_spec resp q,
          fun h => communicate_fallback_of_noValue resp q h⟩
  · simp [communicate_with_scala]
  · have hp := poll_from_sleep_before_reads resp max_retries 0
    cases hh : (poll_from resp 0 max_retries).2 with
    | nil => simp [communicate_with_scala, sleep_before_reads, hh]
    | cons e t =>
      rw [hh] at hp
      simpa [communicate_with_scala, sleep_before_reads, hh] using hp
  · have hp := poll_from_reads_le resp max_retries 0
    simpa [communicate_with_scala, List.countP_cons, isRead] using hp

/-- C1 witness: with an engine that never makes the response readable, the
call writes the request first and returns the fallback message. -/
theorem communicate_retry_spec_witness :
    (communicate_with_scala false (fun _ => none) "hi").2.head?
        = some (Event.writeRequest ("hi" ++ "\n"))
  ∧ (communicate_with_scala false (fun _ => none) "hi").1 = fallback_message :=
  ⟨(communicate_retry_spec (fun _ => none) "hi").1,
   (communicate_retry_spec (fun _ => none) "hi").2.2.2.2 (by decide)⟩

/-- C2 counterexample: at a concrete session state and question, when the
append to the conversation file raises, the exception escapes the
question-handling block unhandled (app.py lines 283-284 have no
`try`/`except`); it is not converted into a displayed warning, so the
claim that nothing propagates as an unhandled fault to the UI shell is
false on this code. -/
theorem persist_failure_counterexample :
    (askStep true false (fun _ => none) "q0" demoChat).1
      = AskOutcome.raisedPersistError := by
  decide

/-- C2 amended: when the append to the current conversation file fails, the
exchange already appended to `chat_memory` remains there and the store is
left unchanged, but the failure propagates out of the question-handling
block as an unhandled exception — it is not caught and surfaced as a
non-fatal warning. -/
theorem persist_failure_propagates (w : Bool) (resp : Nat → Option String)
    (q : String) (st : ChatState) :
    (askStep true w resp q st).2.chat_memory
        = st.chat_memory
            ++ [{ question := q, answer := (communicate_with_scala w resp q).1 }]
  ∧ (askStep true w resp q st).1 = AskOutcome.raisedPersistError
  ∧ (askStep true w resp q st).2.store = st.store :=
  ⟨rfl, rfl, rfl⟩

/-- C2 witness: the amended behavior at a concrete state and question. -/
theorem persist_failure_propagates_witness :
    (askStep true false (fun _ => none) "q1" demoChat).2.chat_memory
        = demoChat.chat_memory
            ++ [{ question := "q1",
                  answer := (communicate_with_scala false (fun _ => none) "q1").1 }]
  ∧ (askStep true false (fun _ => none) "q1" demoChat).1
        = AskOutcome.raisedPersistError
  ∧ (askStep true false (fun _ => none) "q1" demoChat).2.store = demoChat.store :=
  persist_failure_propagates false (fun _ => none) "q1" demoChat

/-- C3: after a response was consumed by a successful read (which clears the
slot), writing a new request and immediately reading the response slot
before the engine writes anything yields no value — never the stale value
of the prior exchange. -/
theorem send_fresh_receive_empty (s : ChannelState) (v P : String)
    (h : (tryReceive s).1 = some v) :
    (tryReceive (send P (tryReceive s).2)).1 = none := by
  by_cases he : py_strip s.scalaoutput = ""
  · simp [tryReceive, he] at h
  · simp [tryReceive, he, send, py_strip_empty]

/-- C3 witness: a consumed response followed by a fresh send reads empty. -/
theorem send_fresh_receive_empty_witness :
    (tryReceive { pyinput := "", scalaoutput := " stale answer " }).1 = some "stale answer"
  ∧ (tryReceive (send "next question"
        (tryReceive { pyinput := "", scalaoutput := " stale answer " }).2)).1 = none :=
  ⟨by decide,
   send_fresh_receive_empty { pyinput := "", scalaoutput := " stale answer " }
     "stale answer" "next question" (by decide)⟩

/-- C4: a read that observes a non-empty value clears the slot as part of
that consumption, so a second immediate read observes empty; a read of an
empty slot reports no value and leaves the state unchanged (it is not an
error). -/
theorem tryReceive_consume_clears (s : ChannelState) :
    (∀ v, (tryReceive s).1 = some v → (tryReceive (tryReceive s).2).1 = none)
  ∧ (py_strip s.scalaoutput = "" → (tryReceive s).1 = none ∧ (tryReceive s).2 = s) := by
  constructor
  · intro v h
    by_cases he : py_strip s.scalaoutput = ""
    · simp [tryReceive, he] at h
    · simp [tryReceive, he, py_strip_empty]
  · intro he
    simp [tryReceive, he]

/-- C4 witness: consuming clears; reading an effectively empty slot is a
no-op that reports no value. -/
theorem tryReceive_consume_clears_witness :
    (tryReceive (tryReceive { pyinput := "", scalaoutput := "answer" }).2).1 = none
  ∧ (tryReceive { pyinput := "q", scalaoutput := "  " }).1 = none
  ∧ (tryReceive { pyinput := "q", scalaoutput := "  " }).2
      = { pyinput := "q", scalaoutput := "  " } :=
  ⟨(tryReceive_consume_clears { pyinput := "", scalaoutput := "answer" }).1
     "answer" (by decide),
   ((tryReceive_consume_clears { pyinput := "q", scalaoutput := "  " }).2 (by decide)).1,
   ((tryReceive_consume_clears { pyinput := "q", scalaoutput := "  " }).2 (by decide)).2⟩

/-- C5: when the engine never provides a usable response, the
question-handling block completes with the fixed fallback as the answer of
the exchange, the exchange is appended to the session memory (length grows
by exactly one), and the question is still appended to the current
conversation file. -/
theorem ask_timeout_fallback_logged (resp : Nat → Option String) (q : String)
    (st : ChatState) (h : ∀ i, i < max_retries → noValue (resp i) = true) :
    (askStep false false resp q st).1 = AskOutcome.completed
  ∧ (askStep false false resp q st).2.chat_memory
      = st.chat_memory ++ [{ question := q, answer := fallback_message }]
  ∧ (askStep false false resp q st).2.chat_memory.length
      = st.chat_memory.length + 1
  ∧ (askStep false false resp q st).2.store.logs
      = appendToLog st.store.logs (current_chat st.store) q := by
  have hf := communicate_fallback_of_noValue resp q h
  refine ⟨rfl, ?_, ?_, rfl⟩
  · simp [askStep, hf]
  · simp [askStep]

/-- C5 witness: an engine whose response file stays empty yields a fallback
exchange that is remembered and a question that is still logged. -/
theorem ask_timeout_fallback_logged_witness :
    (askStep false false (fun _ => some "") "Who directed Jaws?" demoChat).1
        = AskOutcome.completed
  ∧ (askStep false false (fun _ => some "") "Who directed Jaws?" demoChat).2.chat_memory
        = demoChat.chat_memory
            ++ [{ question := "Who directed Jaws?", answer := fallback_message }]
  ∧ (askStep false false (fun _ => some "") "Who directed Jaws?" demoChat).2.chat_memory.length
        = demoChat.chat_memory.length + 1
  ∧ (askStep false false (fun _ => some "") "Who directed Jaws?" demoChat).2.store.logs
        = appendToLog demoChat.store.logs (current_chat demoChat.store) "Who directed Jaws?" :=
  ask_timeout_fallback_logged (fun _ => some "") "Who directed Jaws?" demoChat (by decide)

/-- C6: the store initialization is idempotent: running it twice equals
running it once (in particular the pointer value is the same), an existing
pointer is never overwritten, and existing conversation files are never
recreated, truncated or otherwise modified. -/
theorem ensureInitialized_idempotent (s : StoreState) :
    ensureInitialized (ensureInitialized s) = ensureInitialized s
  ∧ (∀ p, s.pointer = some p → (ensureInitialized s).pointer = some p)
  ∧ (s.logs ≠ [] → (ensureInitialized s).logs = s.logs)
  ∧ (∀ n c, (n, c) ∈ s.logs → (n, c) ∈ (ensureInitialized s).logs) :=
  ⟨ensureInitialized_idem s,
   fun p hp => ensureInitialized_pointer_some s p hp,
   fun h => ensureInitialized_logs_of_ne_nil s h,
   fun n c h => ensureInitialized_mem_logs s n c h⟩

/-- C6 witness: on an already-initialized store, a second initialization
changes nothing and keeps the default pointer and log. -/
theorem ensureInitialized_idempotent_witness :
    ensureInitialized (ensureInitialized demoStore) = ensureInitialized demoStore
  ∧ (ensureInitialized demoStore).pointer = some defaultChatFile
  ∧ (ensureInitialized demoStore).logs = demoStore.logs :=
  ⟨(ensureInitialized_idempotent demoStore).1,
   (ensureInitialized_idempotent demoStore).2.1 defaultChatFile rfl,
   (ensureInitialized_idempotent demoStore).2.2.1 (by decide)⟩

/-- C7: appending a question writes the question plus a newline at the end
of the log, so the previous contents are a strict prefix of the new
contents; other logs are unchanged, and the only other core operation that
touches logs — the store initialization — preserves every existing log
entry exactly. -/
theorem appendQuestion_preserves_log (logs : List (String × String))
    (name q c : String) (h : lookupLog logs name = some c) :
    lookupLog (appendToLog logs name q) name = some (c ++ (q ++ "\n"))
  ∧ (∃ t, t ≠ "" ∧ lookupLog (appendToLog logs name q) name = some (c ++ t))
  ∧ (∀ n, n ≠ name → lookupLog (appendToLog logs name q) n = lookupLog logs n)
  ∧ (∀ s : StoreState, ∀ n v, (n, v) ∈ s.logs → (n, v) ∈ (ensureInitialized s).logs) :=
  ⟨lookupLog_appendToLog_self logs name q c h,
   ⟨q ++ "\n", append_newline_ne_empty q, lookupLog_appendToLog_self logs name q c h⟩,
   fun n hn => lookupLog_appendToLog_other logs name q n hn,
   fun s n v hv => ensureInitialized_mem_logs s n v hv⟩

/-- C7 witness: appending to the demo log extends its contents by exactly
the question and a newline. -/
theorem appendQuestion_preserves_log_witness :
    lookupLog (appendToLog demoStore.logs defaultChatFile "new question") defaultChatFile
      = some ("earlier question\n" ++ ("new question" ++ "\n")) :=
  (appendQuestion_preserves_log demoStore.logs defaultChatFile "new question"
     "earlier question\n" (by decide)).1

/-- C8: when writing the request slot fails, the error is surfaced as a
display-level error, `communicate_with_scala` still returns the fixed
fallback message, and the question-handling block completes normally with
a fallback exchange appended — the conversation flow continues. -/
theorem request_write_failure_fallback (resp : Nat → Option String) (q : String)
    (st : ChatState) :
    (communicate_with_scala true resp q).1 = fallback_message
  ∧ Event.displayError ∈ (communicate_with_scala true resp q).2
  ∧ (askStep false true resp q st).1 = AskOutcome.completed
  ∧ (askStep false true resp q st).2.chat_memory
      = st.chat_memory ++ [{ question := q, answer := fallback_message }] := by
  refine ⟨rfl, ?_, rfl, ?_⟩
  · simp [communicate_with_scala]
  · simp [askStep, communicate_with_scala]

/-- C8 witness: a failing request write at a concrete state still produces
a fallback exchange and a displayed error. -/
theorem request_write_failure_fallback_witness :
    (communicate_with_scala true (fun _ => none) "q2").1 = fallback_message
  ∧ Event.displayError ∈ (communicate_with_scala true (fun _ => none) "q2").2
  ∧ (askStep false true (fun _ => none) "q2" demoChat).1 = AskOutcome.completed
  ∧ (askStep false true (fun _ => none) "q2" demoChat).2.chat_memory
      = demoChat.chat_memory ++ [{ question := "q2", answer := fallback_message }] :=
  request_write_failure_fallback (fun _ => none) "q2" demoChat

/-- C9: for every write outcome and every sequence of response-slot states,
`communicate_with_scala` returns a non-empty string: either the stripped
content of a response-slot read (non-empty because the emptiness check
guards the return) or exactly the fixed fallback message. -/
theorem communicate_result_nonempty (w : Bool) (resp : Nat → Option String)
    (q : String) :
    (communicate_with_scala w resp q).1 ≠ ""
  ∧ ((communicate_with_scala w resp q).1 = fallback_message
     ∨ ∃ k, k < max_retries ∧ ∃ s, resp k = some s ∧ py_strip s ≠ ""
         ∧ (communicate_with_scala w resp q).1 = py_strip s) := by
  cases w with
  | true =>
    refine ⟨?_, Or.inl rfl⟩
    have h1 : (communicate_with_scala true resp q).1 = fallback_message := rfl
    rw [h1]
    decide
  | false =>
    rcases communicate_result_spec resp q with hfb | ⟨k, hk, _, s, hs, hne, hres⟩
    · refine ⟨?_, Or.inl hfb⟩
      rw [hfb]
      decide
    · refine ⟨?_, Or.inr ⟨k, hk, s, hs, hne, hres⟩⟩
      rw [hres]
      exact hne

/-- C9 witness: a concrete run with a real response returns its stripped
non-empty content. -/
theorem communicate_result_nonempty_witness :
    (communicate_with_scala false (fun _ => some " Spielberg ") "q3").1 ≠ ""
  ∧ ((communicate_with_scala false (fun _ => some " Spielberg ") "q3").1 = fallback_message
     ∨ ∃ k, k < max_retries ∧ ∃ s, (fun _ : Nat => some " Spielberg ") k = some s
         ∧ py_strip s ≠ ""
         ∧ (communicate_with_scala false (fun _ => some " Spielberg ") "q3").1 = py_strip s) :=
  communicate_result_nonempty false (fun _ => some " Spielberg ") "q3"

/-- C10: on the timeout path — no attempt yields a usable value — the call
never clears (writes) the response slot: a response arriving after the
retry budget is exhausted stays in the slot for the next call. -/
theorem timeout_leaves_response_slot (resp : Nat → Option String) (q : String)
    (h : ∀ i, i < max_retries → noValue (resp i) = true) :
    Event.clearResponse ∉ (communicate_with_scala false resp q).2
  ∧ (communicate_with_scala false resp q).1 = fallback_message := by
  constructor
  · have hnc := poll_from_no_clear resp max_retries 0 (by
      intro k hk
      simpa using h k hk)
    simpa [communicate_with_scala] using hnc
  · exact communicate_fallback_of_noValue resp q h

/-- C10 witness: a response file holding only whitespace on every attempt
takes the timeout path and the trace contains no clear of the slot. -/
theorem timeout_leaves_response_slot_witness :
    Event.clearResponse ∉ (communicate_with_scala false (fun _ => some " ") "late").2
  ∧ (communicate_with_scala false (fun _ => some " ") "late").1 = fallback_message :=
  timeout_leaves_response_slot (fun _ => some " ") "late" (by decide)

end MovieMate
